import Mathlib

/-!
Shallow embedding of the `imu_gimbal` repository's numerical and control
logic, with proofs of the specification claims.

Conventions of the embedding:
* Python floats are modelled as rationals (`ℚ`); every arithmetic
  operation on the claims' paths is exact (additions, comparisons,
  multiplications, one 3×3 matrix inverse), so `ℚ` is adequate.
* Stateful Python objects become Lean structures with explicit state
  passing: a mutating method `m(self, x)` becomes a function
  `m : S → X → S × Result`.
* I/O (serial reads/writes, Dynamixel register writes, stdout) is
  modelled by explicit inputs (the value a read produced, or a flag that
  the read raised) or by emitted action/log lists.
-/

namespace IMUGimbal

/-! ## AngleUnwrapper
From `src/arduino_and_macbook/visualizer_imu.py` lines 23-53 (identical
copies in `src/combined_imu_dynamixel.py` lines 102-123 and
`src/jetson/imu_visualizer.py` lines 43-65). -/

/-- State of `AngleUnwrapper`: `previous_angle` is `None` initially,
`offset` starts at 0. -/
structure AngleUnwrapper where
  previous_angle : Option ℚ
  offset : ℚ
deriving DecidableEq, Repr

/-- Models `AngleUnwrapper.__init__`. -/
def AngleUnwrapper.init : AngleUnwrapper := ⟨none, 0⟩

/-- Models `AngleUnwrapper.unwrap(self, angle)`: returns the mutated unwrapper
and the returned (unwrapped) angle. -/
def AngleUnwrapper.unwrap (u : AngleUnwrapper) (angle : ℚ) :
    AngleUnwrapper × ℚ :=
  match u.previous_angle with
  | none => (⟨some angle, u.offset⟩, angle)
  | some prev =>
    let diff := angle - prev
    let offset :=
      if diff > 180 then u.offset - 360
      else if diff < -180 then u.offset + 360
      else u.offset
    (⟨some angle, offset⟩, angle + offset)

/-- Models `AngleUnwrapper.reset(self)`. -/
def AngleUnwrapper.reset (_ : AngleUnwrapper) : AngleUnwrapper := ⟨none, 0⟩

/-- Run `unwrap` over a list of angles, collecting the returned values
(models feeding consecutive parsed yaw samples to one instance). -/
def AngleUnwrapper.run (u : AngleUnwrapper) : List ℚ → AngleUnwrapper × List ℚ
  | [] => (u, [])
  | a :: rest =>
    let r := u.unwrap a
    let t := r.1.run rest
    (t.1, r.2 :: t.2)

/-! ## KalmanFilter3D
From `src/arduino_and_macbook/visualizer_imu.py` lines 56-98 (identical
copy in `src/combined_imu_dynamixel.py` lines 126-147). -/

/-- State of `KalmanFilter3D`.  The constructor stores the matrices
`Q`, `R`, `F`, `H` on the instance, so they are fields here. -/
structure KalmanFilter3D where
  state : Fin 6 → ℚ
  covariance : Matrix (Fin 6) (Fin 6) ℚ
  Q : Matrix (Fin 6) (Fin 6) ℚ
  R : Matrix (Fin 3) (Fin 3) ℚ
  F : Matrix (Fin 6) (Fin 6) ℚ
  H : Matrix (Fin 3) (Fin 6) ℚ
  dt : ℚ

/-- The state transition matrix built in `__init__`:
`F = np.eye(6); F[0:3, 3:6] = np.eye(3)`. -/
def kalmanF : Matrix (Fin 6) (Fin 6) ℚ :=
  Matrix.of fun i j => if i = j then 1 else if (j : ℕ) = (i : ℕ) + 3 then 1 else 0

/-- The measurement matrix built in `__init__`:
`H = np.zeros((3, 6)); H[0:3, 0:3] = np.eye(3)`. -/
def kalmanH : Matrix (Fin 3) (Fin 6) ℚ :=
  Matrix.of fun i j => if (j : ℕ) = (i : ℕ) then 1 else 0

/-- Models `KalmanFilter3D.__init__(self, process_noise=0.1, measurement_noise=1.0)`. -/
def KalmanFilter3D.init (process_noise measurement_noise : ℚ) : KalmanFilter3D where
  state := fun _ => 0
  covariance := (1000 : ℚ) • (1 : Matrix (Fin 6) (Fin 6) ℚ)
  Q := process_noise • (1 : Matrix (Fin 6) (Fin 6) ℚ)
  R := measurement_noise • (1 : Matrix (Fin 3) (Fin 3) ℚ)
  F := kalmanF
  H := kalmanH
  dt := 1 / 100

/-- Default construction `KalmanFilter3D()` (defaults 0.1 and 1.0). -/
def KalmanFilter3D.default : KalmanFilter3D := KalmanFilter3D.init (1 / 10) 1

/-- Exact inverse of a 3×3 rational matrix, modelling `np.linalg.inv` on
the (nonsingular) innovation-covariance matrix.  On a singular input
`np.linalg.inv` raises; this total model returns the zero matrix there
(the claims never depend on that case's value). -/
def inv3 (A : Matrix (Fin 3) (Fin 3) ℚ) : Matrix (Fin 3) (Fin 3) ℚ :=
  A.det⁻¹ • A.adjugate

/-- Models `KalmanFilter3D.predict(self)`:
`state = F @ state; covariance = F @ covariance @ F.T + Q`. -/
def KalmanFilter3D.predict (kf : KalmanFilter3D) : KalmanFilter3D :=
  { kf with
    state := kf.F.mulVec kf.state
    covariance := kf.F * kf.covariance * kf.F.transpose + kf.Q }

/-- Models `KalmanFilter3D.update(self, measurement)`: returns the mutated
filter and the returned value `state[0:3]`. -/
def KalmanFilter3D.update (kf : KalmanFilter3D) (measurement : Fin 3 → ℚ) :
    KalmanFilter3D × (Fin 3 → ℚ) :=
  let K := kf.covariance * kf.H.transpose *
    inv3 (kf.H * kf.covariance * kf.H.transpose + kf.R)
  let innovation := measurement - kf.H.mulVec kf.state
  let state := kf.state + K.mulVec innovation
  let covariance := ((1 : Matrix (Fin 6) (Fin 6) ℚ) - K * kf.H) * kf.covariance
  ({ kf with state := state, covariance := covariance },
    fun i => state (Fin.castLE (by omega) i))

/-! ## The combined IMU + Dynamixel application
From `src/combined_imu_dynamixel.py`.  Only the state that the claims
are about is modelled: the six orientation-history buffers, the Kalman
filter, the yaw unwrapper and the `continuous_yaw` flag
(`__init__` lines 216-238). -/

/-- The constant `DATA_HISTORY_LENGTH = 200` (`src/combined_imu_dynamixel.py` line 47). -/
def DATA_HISTORY_LENGTH : ℕ := 200

structure AppState where
  x_data : List ℚ
  y_data : List ℚ
  z_data : List ℚ
  x_filtered : List ℚ
  y_filtered : List ℚ
  z_filtered : List ℚ
  kalman_filter : KalmanFilter3D
  yaw_unwrapper : AngleUnwrapper
  continuous_yaw : Bool

/-- The application state right after `__init__`: empty buffers, a
default-constructed filter, a fresh unwrapper, `continuous_yaw = True`. -/
def AppState.init : AppState where
  x_data := []
  y_data := []
  z_data := []
  x_filtered := []
  y_filtered := []
  z_filtered := []
  kalman_filter := KalmanFilter3D.default
  yaw_unwrapper := AngleUnwrapper.init
  continuous_yaw := true

/-- Python `xs[-n:]` applied under the guard `len(xs) > n`:
keep only the last `n` elements. -/
def keepLast (n : ℕ) (xs : List ℚ) : List ℚ := xs.drop (xs.length - n)

/-- The body of `update_imu` run for one successfully parsed
`Euler:` sample (`src/combined_imu_dynamixel.py` lines 340-369):
optional yaw unwrap, one `predict`, one `update`, append the raw and
filtered samples, trim every buffer to the last `DATA_HISTORY_LENGTH`
entries when `x_data` has grown past it.  Returns the new state and the
filtered output handed to the angle display. -/
def AppState.processSample (st : AppState) (yaw pitch roll : ℚ) :
    AppState × (Fin 3 → ℚ) :=
  let uw := if st.continuous_yaw then st.yaw_unwrapper.unwrap yaw
            else (st.yaw_unwrapper, yaw)
  let yaw := uw.2
  let measurement : Fin 3 → ℚ := ![yaw, pitch, roll]
  let kf1 := st.kalman_filter.predict
  let upd := kf1.update measurement
  let filtered := upd.2
  let x_data := st.x_data ++ [yaw]
  let y_data := st.y_data ++ [pitch]
  let z_data := st.z_data ++ [roll]
  let x_filtered := st.x_filtered ++ [filtered 0]
  let y_filtered := st.y_filtered ++ [filtered 1]
  let z_filtered := st.z_filtered ++ [filtered 2]
  let trim := x_data.length > DATA_HISTORY_LENGTH
  ({ st with
      x_data := if trim then keepLast DATA_HISTORY_LENGTH x_data else x_data
      y_data := if trim then keepLast DATA_HISTORY_LENGTH y_data else y_data
      z_data := if trim then keepLast DATA_HISTORY_LENGTH z_data else z_data
      x_filtered := if trim then keepLast DATA_HISTORY_LENGTH x_filtered else x_filtered
      y_filtered := if trim then keepLast DATA_HISTORY_LENGTH y_filtered else y_filtered
      z_filtered := if trim then keepLast DATA_HISTORY_LENGTH z_filtered else z_filtered
      kalman_filter := upd.1
      yaw_unwrapper := uw.1 },
    filtered)

/-- The measurement vector `update_imu` feeds to the filter: the yaw
after the optional unwrap, then pitch and roll. -/
def AppState.measurementOf (st : AppState) (yaw pitch roll : ℚ) : Fin 3 → ℚ :=
  ![if st.continuous_yaw then (st.yaw_unwrapper.unwrap yaw).2 else yaw,
    pitch, roll]

/-- Models `reset_plot(self)` (lines 699-709): clear the six buffers and reset
the unwrapper (the plot-limit/redraw calls touch no modelled state). -/
def AppState.reset_plot (st : AppState) : AppState :=
  { st with
    x_data := [], y_data := [], z_data := []
    x_filtered := [], y_filtered := [], z_filtered := []
    yaw_unwrapper := st.yaw_unwrapper.reset }

/-- Models `zero_imu(self)` (lines 711-723), success path of the `try` block:
after writing `ZERO` to the serial port (pure I/O, not modelled state),
reallocate the Kalman filter with default noise, reset the unwrapper,
then `reset_plot`. -/
def AppState.zero_imu (st : AppState) : AppState :=
  AppState.reset_plot
    { st with
      kalman_filter := KalmanFilter3D.default
      yaw_unwrapper := st.yaw_unwrapper.reset }

/-! ## One iteration of the `update_imu` read loop
(`src/combined_imu_dynamixel.py` lines 331-377).  The loop body runs
only when `self.imu_serial.in_waiting > 0`; the whole read/parse/filter
pass is inside a `try`, and the `except` handler prints the error and
resets the serial input buffer when `in_waiting > 100`. -/

/-- What the attempted read/parse produced: an exception somewhere in
the `try` block (carrying the message that gets printed), or a line that
either matched the `Euler:` regex (the three parsed floats) or did not. -/
def ReadResult : Type := Except String (Option (ℚ × ℚ × ℚ))

/-- The `try` block of one iteration: on a matched line run the full
sample pass, on an unmatched line do nothing, propagate an exception. -/
def AppState.readIterBody (st : AppState) (read : ReadResult) :
    Except String AppState :=
  match read with
  | .error e => .error e
  | .ok none => .ok st
  | .ok (some (y, p, r)) => .ok (st.processSample y p r).1

/-- Result of one loop iteration: the new application state, whether
`reset_input_buffer()` was called (which discards the whole pyserial
input buffer), and the lines printed to stdout. -/
structure IterResult where
  state : AppState
  bufferReset : Bool
  log : List String

/-- One iteration of the `while` loop in `update_imu`: skip when no
bytes are pending, otherwise run the `try` block; the `except` handler
prints the error and resets the input buffer iff more than 100 bytes
are pending. -/
def AppState.iterStep (st : AppState) (inWaiting : ℕ) (read : ReadResult) :
    IterResult :=
  if inWaiting = 0 then ⟨st, false, []⟩
  else
    match st.readIterBody read with
    | .ok st1 => ⟨st1, false, []⟩
    | .error e => ⟨st, decide (100 < inWaiting), ["Error reading IMU data: " ++ e]⟩

/-! ## Dynamixel communication-result handling
`check_comm_result` from `src/u2d2-dynamixel-cli.py` lines 120-127
(same shape in `src/combined_imu_dynamixel.py` lines 150-157):
errors are logged and reported as a `False` return, never raised.
`COMM_SUCCESS = 0`.  The two log strings stand for the SDK's
`getTxRxResult` / `getRxPacketError` messages. -/
def check_comm_result (dxl_comm_result dxl_error : ℤ) : Bool × List String :=
  if dxl_comm_result ≠ 0 then (false, ["TxRxResult"])
  else if dxl_error ≠ 0 then (false, ["RxPacketError"])
  else (true, [])

/-! ## Startup of `src/u2d2-dynamixel-cli.py` (lines 36-118)
Module-level code: SDK import, config load (file / YAML / top-level key
/ typed values), `portHandler.openPort()`, `portHandler.setBaudRate()`.
Every failure calls `sys.exit(1)`; modelled as `Except ℕ Unit` where
`.error c` is `sys.exit(c)`. -/

/-- Which of the fallible startup steps succeed in a given run. -/
structure StartupEnv where
  sdkImportOk : Bool
  configFileFound : Bool
  configYamlOk : Bool
  configHasSettingsKey : Bool
  configValuesOk : Bool
  portOpenOk : Bool
  baudRateOk : Bool
deriving DecidableEq, Repr

/-- The module-level startup sequence, in source order. -/
def startup (e : StartupEnv) : Except ℕ Unit :=
  if !e.sdkImportOk then .error 1
  else if !e.configFileFound then .error 1
  else if !e.configYamlOk then .error 1
  else if !e.configHasSettingsKey then .error 1
  else if !e.configValuesOk then .error 1
  else if !e.portOpenOk then .error 1
  else if !e.baudRateOk then .error 1
  else .ok ()

/-- A configuration-loading failure in the sense of the spec: missing
file, malformed YAML, missing `dynamixel_settings` key, or missing /
ill-typed required value. -/
def StartupEnv.configLoadFailed (e : StartupEnv) : Bool :=
  !e.configFileFound || !e.configYamlOk || !e.configHasSettingsKey || !e.configValuesOk

/-! ## The interactive CLI command loop
`src/arduino_and_macbook/macbook/imu_trace_cli.py` lines 83-138.
`cmd = sys.stdin.readline().strip().upper()`; commands are compared as
strings, modelled here on the command's character list so the
`elif`-chain becomes an ordered pattern match. -/

/-- A write to the upstream serial port (the newline-terminated command
strings `STOP\n`, `START\n`, `HOME\n`, `ZERO\n`, `<mode>\n`,
`SPEED,<n>\n`). -/
inductive SerialWrite where
  | stop
  | start
  | home
  | zero
  | mode (m : List Char)
  | speed (n : ℚ)
deriving DecidableEq, Repr

/-- Digits of a decimal literal to a natural number. -/
def digitsVal (cs : List Char) : ℕ :=
  cs.foldl (fun n c => 10 * n + (c.toNat - 48)) 0

/-- Model of Python `float()` on the plain decimal literals the CLI's
`SPEED` handler receives: optional sign, digits with at most one `.`,
at least one digit; surrounding whitespace stripped (Python strips it
too).  Inputs `float()` rejects give `none` (the code then prints
"Invalid speed value" and writes nothing); exotic accepted forms
(exponents, `inf`, `nan`, underscores) are outside this model. -/
def parseDecimal (s : List Char) : Option ℚ :=
  let s := (s.dropWhile (·.isWhitespace)).reverse.dropWhile (·.isWhitespace) |>.reverse
  let core : List Char → Option ℚ := fun body =>
    match body.splitOn '.' with
    | [ds] =>
      if ds ≠ [] && ds.all Char.isDigit then some (digitsVal ds) else none
    | [ip, fp] =>
      if (ip ≠ [] || fp ≠ []) && ip.all Char.isDigit && fp.all Char.isDigit then
        some ((digitsVal ip : ℚ) + (digitsVal fp : ℚ) / (10 : ℚ) ^ fp.length)
      else none
    | _ => none
  match s with
  | '-' :: body => (core body).map (fun q => -q)
  | '+' :: body => core body
  | body => core body

/-- The `elif` chain on one stripped, uppercased command (lines 85-128):
returns the serial writes it performs (at most one) and whether it
breaks out of the loop (`Q`). -/
def handleCmd : List Char → List SerialWrite × Bool
  | ['Q'] => ([], true)
  | ['S'] => ([.stop], false)
  | ['G'] => ([.start], false)
  | ['H'] => ([.home], false)
  | ['Z'] => ([.zero], false)
  | 'M' :: ' ' :: m =>
    if m == "RANDOM".data || m == "CONTROL".data || m == "FOLLOW".data then
      ([.mode m], false)
    else ([], false)
  | 'S' :: 'P' :: 'E' :: 'E' :: 'D' :: ' ' :: s =>
    match parseDecimal s with
    | some speed =>
      if 1 / 2 ≤ speed && speed ≤ 10 then ([.speed speed], false) else ([], false)
    | none => ([], false)
  | _ => ([], false)

/-- Python `str.strip()`: drop leading and trailing whitespace. -/
def pyStrip (cs : List Char) : List Char :=
  ((cs.dropWhile (·.isWhitespace)).reverse.dropWhile (·.isWhitespace)).reverse

/-- Python `str.upper()` on the ASCII commands this CLI receives. -/
def pyUpper (cs : List Char) : List Char := cs.map Char.toUpper

/-- Models `cmd = line.strip().upper()` then the `elif` chain. -/
def handleLine (line : String) : List SerialWrite × Bool :=
  handleCmd (pyUpper (pyStrip line.data))

/-- The dispatch loop over a sequence of stdin lines, as the `elif`
chain would run them: process until `Q` breaks out (or input ends),
then the `finally` block writes `STOP`.  This is the loop's intended
behaviour only: in the source as written the dispatch is unreachable,
because reaching a command first evaluates `select.select(...)` at line
83 and `select` is never imported (see `runCmdLoopActual`). -/
def runCmdLoop : List String → List SerialWrite
  | [] => [.stop]
  | line :: rest =>
    let h := handleLine line
    h.1 ++ (if h.2 then [.stop] else runCmdLoop rest)

/-- The module names imported at the top of
`src/arduino_and_macbook/macbook/imu_trace_cli.py` (lines 1-7).
`select` is not among them, and no `import select` exists anywhere in
the repository. -/
def cliImportedModules : List String :=
  ["serial", "re", "time", "serial.tools.list_ports", "argparse", "sys",
   "datetime"]

/-- Python name resolution for a module referenced in `main`'s loop
body: a module name that was never imported raises `NameError` when
first evaluated. -/
def resolveModule (name : String) : Except String Unit :=
  if name ∈ cliImportedModules then Except.ok ()
  else Except.error ("NameError: name " ++ name ++ " is not defined")

/-- The command loop as the source actually runs it (lines 68-138):
every iteration's user-input check at line 83 evaluates
`select.select([sys.stdin], [], [], 0)`, which first resolves the name
`select`; only on success would the pending stdin lines be read and
dispatched.  The `try` catches only `KeyboardInterrupt`, so on a
`NameError` the `finally` block still writes `STOP`, and the exception
propagates out of `main`.  Returns the serial writes performed and the
propagated exception, if any. -/
def runCmdLoopActual (lines : List String) : List SerialWrite × Option String :=
  match resolveModule "select" with
  | Except.error e => ([.stop], some e)
  | Except.ok () => (runCmdLoop lines, none)

/-! ## The random-movement thread
`src/u2d2-dynamixel-cli.py` lines 193-230 (same body in
`src/u2d2-dynamixel.py` lines 485-547). -/

/-- Python `int()` on a rational: truncation toward zero. -/
def truncToInt (q : ℚ) : ℤ := q.num.tdiv (q.den : ℤ)

/-- The goal velocity computed for one servo in one iteration:
`velocity = int((speed_percent / 100.0) * MAX_VELOCITY_UNIT)`;
`goal_velocity = max(-MAX_VELOCITY_UNIT, min(MAX_VELOCITY_UNIT, velocity * direction))`.
`speed_percent` is the `random.uniform(RANDOM_MIN_SPEED_PERCENT,
RANDOM_MAX_SPEED_PERCENT)` draw and `direction` the
`random.choice([-1, 1])` draw, both passed in explicitly. -/
def randomGoalVelocity (speed_percent : ℚ) (direction maxVelocityUnit : ℤ) : ℤ :=
  max (-maxVelocityUnit)
    (min maxVelocityUnit (truncToInt (speed_percent / 100 * maxVelocityUnit) * direction))

/-- A Dynamixel register write performed through the helper functions. -/
inductive DxlAction where
  | setGoalVelocity (servoId : ℤ) (velocity : ℤ)
  | setTorque (servoId : ℤ) (enable : Bool)
deriving DecidableEq, Repr

/-- The cleanup loop run when the random-movement thread exits
(lines 222-227): for every configured servo, goal velocity 0 then
torque disabled. -/
def randomMoveCleanup (servoIds : List ℤ) : List DxlAction :=
  servoIds.flatMap (fun sid => [.setGoalVelocity sid 0, .setTorque sid false])

/-! ## The plain 3-buffer trace plot
`update_plot` in `src/imu_trace_3d.py` lines 299-339: append the parsed
sample to `x_data`, `y_data`, `z_data` and keep only the last 200 points
when `len(x_data) > 200`. -/
def trace3Step (bufs : List ℚ × List ℚ × List ℚ) (yaw pitch roll : ℚ) :
    List ℚ × List ℚ × List ℚ :=
  let x := bufs.1 ++ [yaw]
  let y := bufs.2.1 ++ [pitch]
  let z := bufs.2.2 ++ [roll]
  if x.length > 200 then (keepLast 200 x, keepLast 200 y, keepLast 200 z)
  else (x, y, z)

/-- Feed a sequence of parsed `Euler:` samples `(yaw, pitch, roll)`
through the combined app's per-sample pass. -/
def AppState.runSamples (st : AppState) (samples : List (ℚ × ℚ × ℚ)) : AppState :=
  samples.foldl (fun s t => (s.processSample t.1 t.2.1 t.2.2).1) st

/-- Feed a sequence of parsed samples through `imu_trace_3d.py`'s
`update_plot` buffer maintenance, starting from the given buffers. -/
def trace3Run (bufs : List ℚ × List ℚ × List ℚ) (samples : List (ℚ × ℚ × ℚ)) :
    List ℚ × List ℚ × List ℚ :=
  samples.foldl (fun b t => trace3Step b t.1 t.2.1 t.2.2) bufs

/-- The claimed buffer invariant for the combined app: every history
buffer holds at most `DATA_HISTORY_LENGTH` points and all six have the
same length. -/
def AppState.buffersOk (st : AppState) : Prop :=
  st.x_data.length ≤ DATA_HISTORY_LENGTH ∧
  st.y_data.length = st.x_data.length ∧
  st.z_data.length = st.x_data.length ∧
  st.x_filtered.length = st.x_data.length ∧
  st.y_filtered.length = st.x_data.length ∧
  st.z_filtered.length = st.x_data.length

/-- The claimed buffer invariant for the 3-buffer trace plot. -/
def trace3Ok (bufs : List ℚ × List ℚ × List ℚ) : Prop :=
  bufs.1.length ≤ 200 ∧ bufs.2.1.length = bufs.1.length ∧
  bufs.2.2.length = bufs.1.length

/-! ## Theorems -/

/-- C1: For every call to `AngleUnwrapper.unwrap` after the first (i.e.
with a stored previous angle): if the new angle minus the previously
stored angle is strictly greater than 180 the accumulated offset
decreases by 360, if it is strictly less than -180 the offset increases
by 360, otherwise the offset is unchanged; the call returns the new
angle plus the updated offset.  On a fresh unwrapper, `unwrap(350)`
followed by `unwrap(10)` returns 370, not 10. -/
theorem unwrap_step_spec :
    (∀ (u : AngleUnwrapper) (prev angle : ℚ), u.previous_angle = some prev →
      (u.unwrap angle).1.offset =
        (if angle - prev > 180 then u.offset - 360
         else if angle - prev < -180 then u.offset + 360
         else u.offset) ∧
      (u.unwrap angle).2 = angle + (u.unwrap angle).1.offset) ∧
    (AngleUnwrapper.init.run [350, 10]).2 = [350, 370] := by
  constructor
  · intro u prev angle h
    simp only [AngleUnwrapper.unwrap, h]
    exact ⟨trivial, trivial⟩
  · norm_num [AngleUnwrapper.run, AngleUnwrapper.unwrap, AngleUnwrapper.init]

/-- Witness for C1 at a concrete input: the second `unwrap` call of the
350-then-10 trace, where the difference -340 is below -180. -/
theorem unwrap_step_spec_witness :
    ((⟨some 350, 0⟩ : AngleUnwrapper).previous_angle = some 350) ∧
    ((⟨some 350, 0⟩ : AngleUnwrapper).unwrap 10).1.offset = 360 ∧
    ((⟨some 350, 0⟩ : AngleUnwrapper).unwrap 10).2 =
      10 + ((⟨some 350, 0⟩ : AngleUnwrapper).unwrap 10).1.offset := by
  have h := unwrap_step_spec.1 ⟨some 350, 0⟩ 350 10 rfl
  refine ⟨rfl, ?_, h.2⟩
  rw [h.1]
  norm_num

/-- C4: the user-triggered zero-IMU action leaves the Kalman filter in
its freshly-constructed state (state vector all zeros, covariance 1000
times the identity), leaves the angle unwrapper reset (no previous
angle, offset 0), and clears all six orientation history buffers. -/
theorem zero_imu_resets_state :
    ∀ st : AppState,
      st.zero_imu.kalman_filter = KalmanFilter3D.default ∧
      KalmanFilter3D.default.state = (fun _ => 0) ∧
      KalmanFilter3D.default.covariance =
        (1000 : ℚ) • (1 : Matrix (Fin 6) (Fin 6) ℚ) ∧
      st.zero_imu.yaw_unwrapper = ⟨none, 0⟩ ∧
      st.zero_imu.x_data = [] ∧ st.zero_imu.y_data = [] ∧
      st.zero_imu.z_data = [] ∧ st.zero_imu.x_filtered = [] ∧
      st.zero_imu.y_filtered = [] ∧ st.zero_imu.z_filtered = [] := by
  intro st
  refine ⟨rfl, rfl, rfl, rfl, rfl, rfl, rfl, rfl, rfl, rfl⟩

/-- C5 counterexample: "whenever the serial input buffer overflows, the
read loop discards the input buffer" is false as stated — in an
iteration whose read raises no exception, 200 pending bytes (well past
the 100-byte overflow threshold the code itself uses) trigger no
`reset_input_buffer` call. -/
theorem overflow_discard_counterexample :
    100 < 200 ∧
    (AppState.init.iterStep 200 (Except.ok none)).bufferReset = false := by
  exact ⟨by norm_num, rfl⟩

/-- C5 amended: the input buffer is discarded exactly when a read
iteration raises an exception and more than 100 bytes are pending; an
iteration that completes without an exception never discards it. -/
theorem buffer_reset_exactly_on_error_overflow :
    (∀ (st : AppState) (n : ℕ) (msg : String),
      (st.iterStep n (Except.error msg)).bufferReset = decide (100 < n)) ∧
    (∀ (st : AppState) (n : ℕ) (r : Option (ℚ × ℚ × ℚ)),
      (st.iterStep n (Except.ok r)).bufferReset = false) := by
  constructor
  · intro st n msg
    simp only [AppState.iterStep, AppState.readIterBody]
    split
    · next h => subst h; simp
    · rfl
  · intro st n r
    cases r <;> simp only [AppState.iterStep, AppState.readIterBody] <;>
      split <;> rfl

/-- C7 counterexample: configuration-loading failures are not the only
process-terminating errors — a run whose configuration loads cleanly
but whose Dynamixel port fails to open also exits with status 1. -/
theorem startup_exit_counterexample :
    startup ⟨true, true, true, true, true, false, true⟩ = Except.error 1 ∧
    StartupEnv.configLoadFailed ⟨true, true, true, true, true, false, true⟩ = false :=
  ⟨rfl, rfl⟩

/-- C7 amended: the process exits (with status 1) iff the SDK import,
configuration loading, port opening, or baud-rate setting fails;
configuration-loading failures are among the fatal conditions, but
port/baud-rate/import failures are fatal too, and nothing else is. -/
theorem startup_exit_characterization :
    ∀ e : StartupEnv,
      startup e =
        (if !e.sdkImportOk || e.configLoadFailed || !e.portOpenOk || !e.baudRateOk
         then Except.error 1 else Except.ok ()) := by
  intro e
  obtain ⟨a, b, c, d, v, p, r⟩ := e
  cases a <;> cases b <;> cases c <;> cases d <;> cases v <;> cases p <;> cases r <;> rfl

/-- C2: for every parsed Euler sample, the per-sample pass performs
exactly one `predict` followed by exactly one `update`, unconditionally
(no gating): the resulting filter and returned value are literally
`update (predict kf) measurement`; the predict step sets
`state = F @ state` and `covariance = F @ covariance @ F.T + Q`; and the
update step returns the first three components of the corrected state. -/
theorem kalman_predict_update_per_sample :
    (∀ (st : AppState) (y p r : ℚ),
      (st.processSample y p r).1.kalman_filter =
        (st.kalman_filter.predict.update (st.measurementOf y p r)).1 ∧
      (st.processSample y p r).2 =
        (st.kalman_filter.predict.update (st.measurementOf y p r)).2) ∧
    (∀ kf : KalmanFilter3D,
      kf.predict.state = kf.F.mulVec kf.state ∧
      kf.predict.covariance = kf.F * kf.covariance * kf.F.transpose + kf.Q) ∧
    (∀ (kf : KalmanFilter3D) (m : Fin 3 → ℚ) (i : Fin 3),
      (kf.update m).2 i = (kf.update m).1.state (Fin.castLE (by omega) i)) := by
  refine ⟨?_, fun kf => ⟨rfl, rfl⟩, fun kf m i => rfl⟩
  intro st y p r
  cases hc : st.continuous_yaw <;>
    simp only [AppState.processSample, AppState.measurementOf, hc] <;>
    exact ⟨rfl, rfl⟩

/-- One per-sample pass of the combined app preserves the buffer
invariant: appending one point to each of the six equal-length buffers
and trimming to the last 200 when past the cap keeps them equal and
within the cap. -/
theorem processSample_buffersOk (st : AppState) (y p r : ℚ) (h : st.buffersOk) :
    (st.processSample y p r).1.buffersOk := by
  obtain ⟨h1, h2, h3, h4, h5, h6⟩ := h
  unfold AppState.processSample AppState.buffersOk
  simp only [keepLast, DATA_HISTORY_LENGTH] at *
  split_ifs <;>
    simp only [List.length_drop, List.length_append, List.length_cons,
      List.length_nil] at * <;>
    omega

/-- The buffer invariant is preserved by any sample sequence. -/
theorem runSamples_buffersOk (samples : List (ℚ × ℚ × ℚ)) :
    ∀ st : AppState, st.buffersOk → (st.runSamples samples).buffersOk := by
  induction samples with
  | nil => intro st h; exact h
  | cons a rest ih =>
    intro st h
    simp only [AppState.runSamples, List.foldl_cons] at *
    exact ih _ (processSample_buffersOk st a.1 a.2.1 a.2.2 h)

/-- One `update_plot` pass of `imu_trace_3d.py` preserves the 3-buffer
invariant. -/
theorem trace3Step_ok (b : List ℚ × List ℚ × List ℚ) (y p r : ℚ)
    (h : trace3Ok b) : trace3Ok (trace3Step b y p r) := by
  obtain ⟨h1, h2, h3⟩ := h
  unfold trace3Step trace3Ok
  simp only [keepLast] at *
  split_ifs with ht
  · simp only [List.length_drop, List.length_append, List.length_cons,
      List.length_nil] at *
    omega
  · simp only [List.length_append, List.length_cons, List.length_nil] at *
    omega

/-- The 3-buffer invariant is preserved by any sample sequence. -/
theorem trace3Run_ok (samples : List (ℚ × ℚ × ℚ)) :
    ∀ b, trace3Ok b → trace3Ok (trace3Run b samples) := by
  induction samples with
  | nil => intro b h; exact h
  | cons a rest ih =>
    intro b h
    simp only [trace3Run, List.foldl_cons] at *
    exact ih _ (trace3Step_ok b a.1 a.2.1 a.2.2 h)

/-- C3: for every sequence of parsed Euler samples, after each append
and trim the orientation history buffers hold at most 200 points
(`DATA_HISTORY_LENGTH = 200`) and all buffers (six in the combined app,
three in the plain trace plot) have equal length. -/
theorem history_buffers_bounded :
    ∀ samples : List (ℚ × ℚ × ℚ),
      (AppState.init.runSamples samples).buffersOk ∧
      trace3Ok (trace3Run ([], [], []) samples) := by
  intro samples
  constructor
  · exact runSamples_buffersOk samples AppState.init
      (by simp [AppState.init, AppState.buffersOk])
  · exact trace3Run_ok samples ([], [], []) (by simp [trace3Ok])

/-- C6: an I/O error raised inside a read iteration is caught (the
step is a total function on states — nothing propagates), a message is
logged when a read was attempted, and the application state (the six
orientation-history buffers, the Kalman filter and the unwrapper) is
left entirely unchanged by the failed iteration; Dynamixel
communication/packet errors are likewise reported as a logged `False`
return of `check_comm_result`, never raised. -/
theorem io_error_iteration_safe :
    (∀ (st : AppState) (n : ℕ) (msg : String),
      (st.iterStep n (Except.error msg)).state = st ∧
      (0 < n → (st.iterStep n (Except.error msg)).log ≠ [])) ∧
    (∀ c e : ℤ,
      (check_comm_result c e).1 = (decide (c = 0) && decide (e = 0))) ∧
    (∀ c e : ℤ,
      (check_comm_result c e).1 = false → (check_comm_result c e).2 ≠ []) := by
  refine ⟨?_, ?_, ?_⟩
  · intro st n msg
    unfold AppState.iterStep AppState.readIterBody
    split_ifs with h
    · exact ⟨rfl, fun hn => absurd h (by omega)⟩
    · exact ⟨rfl, fun _ => by simp⟩
  · intro c e
    unfold check_comm_result
    split_ifs with h1 h2 <;> simp_all
  · intro c e
    unfold check_comm_result
    split_ifs with h1 h2 <;> simp_all

/-- Witness for C6 at concrete inputs: a failed read with 5 pending
bytes leaves the initial state unchanged and logs a line, and a
Dynamixel transmit failure (`COMM_TX_FAIL = -1001`) yields a logged
`False` return. -/
theorem io_error_iteration_safe_witness :
    (AppState.init.iterStep 5 (Except.error "boom")).state = AppState.init ∧
    (AppState.init.iterStep 5 (Except.error "boom")).log ≠ [] ∧
    (check_comm_result (-1001) 0).2 ≠ [] := by
  refine ⟨(io_error_iteration_safe.1 AppState.init 5 "boom").1,
    (io_error_iteration_safe.1 AppState.init 5 "boom").2 (by omega),
    io_error_iteration_safe.2.2 (-1001) 0 (by decide)⟩

/-- Behaviour of the `elif` dispatch chain of the interactive terminal
controller (lines 85-128), as it would run were it reachable: each
accepted command maps to exactly one upstream serial write (and every
command to at most one); `S` sends STOP, `G` sends START, `H` sends
HOME, `Z` sends ZERO, `M <mode>` sends the mode word only for
RANDOM/CONTROL/FOLLOW, `SPEED <n>` sends `SPEED,<n>` only when
`0.5 ≤ n ≤ 10.0`, `Q` exits the loop with the `finally` block sending
STOP, and any other input (including `?`) sends nothing.  In the source
as written this chain is dead code — see `cli_loop_select_name_error`. -/
theorem handleCmd_dispatch_spec :
    (∀ cmd : List Char, (handleCmd cmd).1.length ≤ 1) ∧
    handleLine "S" = ([.stop], false) ∧
    handleLine "G" = ([.start], false) ∧
    handleLine "H" = ([.home], false) ∧
    handleLine "Z" = ([.zero], false) ∧
    handleLine "Q" = ([], true) ∧
    (∀ m : List Char, handleCmd ('M' :: ' ' :: m) =
      if m == "RANDOM".data || m == "CONTROL".data || m == "FOLLOW".data
      then ([.mode m], false) else ([], false)) ∧
    handleLine "M RANDOM" = ([.mode "RANDOM".data], false) ∧
    handleLine "M SIDEWAYS" = ([], false) ∧
    (∀ s : List Char, handleCmd ('S' :: 'P' :: 'E' :: 'E' :: 'D' :: ' ' :: s) =
      match parseDecimal s with
      | some n => if 1 / 2 ≤ n && n ≤ 10 then ([.speed n], false) else ([], false)
      | none => ([], false)) ∧
    handleLine "SPEED 2.5" = ([.speed (5 / 2)], false) ∧
    handleLine "SPEED 0.4" = ([], false) ∧
    handleLine "SPEED 11" = ([], false) ∧
    handleLine "?" = ([], false) ∧
    (∀ rest : List String, runCmdLoop ("Q" :: rest) = [.stop]) := by
  have hgen : ∀ s : List Char,
      handleCmd ('S' :: 'P' :: 'E' :: 'E' :: 'D' :: ' ' :: s) =
        match parseDecimal s with
        | some n => if 1 / 2 ≤ n && n ≤ 10 then ([.speed n], false) else ([], false)
        | none => ([], false) := fun s => rfl
  refine ⟨?_, rfl, rfl, rfl, rfl, rfl, fun m => rfl, by decide, by decide,
    hgen, ?_, ?_, ?_, rfl, fun rest => rfl⟩
  · intro cmd
    rw [handleCmd.eq_def]
    split
    any_goals simp
    · split <;> simp
    · rcases parseDecimal _ with _ | q
      · simp
      · simp only
        split <;> simp
  · have hline : handleLine "SPEED 2.5" =
        handleCmd ('S' :: 'P' :: 'E' :: 'E' :: 'D' :: ' ' :: ['2', '.', '5']) := rfl
    have hp : parseDecimal ['2', '.', '5'] = some (5 / 2) := by
      have h : parseDecimal ['2', '.', '5'] =
          some ((digitsVal ['2'] : ℚ) + (digitsVal ['5'] : ℚ) / (10 : ℚ) ^ (1 : ℕ)) := rfl
      rw [h]
      norm_num [digitsVal, show '2'.toNat = 50 from rfl, show '5'.toNat = 53 from rfl]
    rw [hline, hgen, hp]
    norm_num
  · have hline : handleLine "SPEED 0.4" =
        handleCmd ('S' :: 'P' :: 'E' :: 'E' :: 'D' :: ' ' :: ['0', '.', '4']) := rfl
    have hp : parseDecimal ['0', '.', '4'] = some (2 / 5) := by
      have h : parseDecimal ['0', '.', '4'] =
          some ((digitsVal ['0'] : ℚ) + (digitsVal ['4'] : ℚ) / (10 : ℚ) ^ (1 : ℕ)) := rfl
      rw [h]
      norm_num [digitsVal, show '0'.toNat = 48 from rfl, show '4'.toNat = 52 from rfl]
    rw [hline, hgen, hp]
    norm_num
  · have hline : handleLine "SPEED 11" =
        handleCmd ('S' :: 'P' :: 'E' :: 'E' :: 'D' :: ' ' :: ['1', '1']) := rfl
    have hp : parseDecimal ['1', '1'] = some 11 := by
      have h : parseDecimal ['1', '1'] = some ((digitsVal ['1', '1'] : ℚ)) := rfl
      rw [h]
      norm_num [digitsVal, show '1'.toNat = 49 from rfl]
    rw [hline, hgen, hp]
    norm_num

/-- C8 (code bug): the claim describes the `elif` dispatch as written,
but the command loop never reaches it.  `select` is absent from the
file's imports, so the user-input check at line 83
(`select.select([sys.stdin], [], [], 0)`) raises `NameError` on the
first iteration — before any command is read.  The `try` catches only
`KeyboardInterrupt`, so the `finally` block writes the one STOP and the
exception propagates out of `main`: on the concrete stdin input `S`
(which the claim says sends STOP as a dispatched command) the actual
loop performs no dispatch at all. -/
theorem cli_loop_select_name_error :
    "select" ∉ cliImportedModules ∧
    runCmdLoopActual ["S"] =
      ([SerialWrite.stop], some "NameError: name select is not defined") ∧
    runCmdLoopActual [] = runCmdLoopActual ["S"] := by
  refine ⟨by decide, rfl, rfl⟩

/-- A single `unwrap` call moves the offset by 0 or ±360. -/
theorem unwrap_offset_shift (u : AngleUnwrapper) (a : ℚ) :
    (u.unwrap a).1.offset = u.offset ∨
    (u.unwrap a).1.offset = u.offset - 360 ∨
    (u.unwrap a).1.offset = u.offset + 360 := by
  unfold AngleUnwrapper.unwrap
  cases u.previous_angle with
  | none => left; rfl
  | some p =>
    simp only
    split_ifs
    · right; left; rfl
    · right; right; rfl
    · left; rfl

/-- A single `unwrap` call keeps the offset an integer multiple of 360. -/
theorem unwrap_offset_mult (u : AngleUnwrapper) (a : ℚ) (k : ℤ)
    (hk : u.offset = 360 * (k : ℚ)) :
    ∃ m : ℤ, (u.unwrap a).1.offset = 360 * (m : ℚ) := by
  rcases unwrap_offset_shift u a with h | h | h
  · exact ⟨k, by rw [h, hk]⟩
  · exact ⟨k - 1, by rw [h, hk]; push_cast; ring⟩
  · exact ⟨k + 1, by rw [h, hk]; push_cast; ring⟩

/-- When a previous angle is stored, `unwrap` returns the new angle plus
the updated offset. -/
theorem unwrap_snd_eq (u : AngleUnwrapper) (a p : ℚ)
    (hp : u.previous_angle = some p) :
    (u.unwrap a).2 = a + (u.unwrap a).1.offset := by
  simp only [AngleUnwrapper.unwrap, hp]

/-- Running `unwrap` over any angle list from a state whose offset is a
multiple of 360 keeps the offset a multiple of 360 and returns every
angle shifted by some integer multiple of 360. -/
theorem run_offset_invariant (angles : List ℚ) :
    ∀ (u : AngleUnwrapper) (k : ℤ), u.offset = 360 * (k : ℚ) →
      (∃ m : ℤ, (u.run angles).1.offset = 360 * (m : ℚ)) ∧
      List.Forall₂ (fun a o : ℚ => ∃ m : ℤ, o = a + 360 * (m : ℚ)) angles
        (u.run angles).2 := by
  induction angles with
  | nil => intro u k hk; exact ⟨⟨k, hk⟩, List.Forall₂.nil⟩
  | cons a rest ih =>
    intro u k hk
    obtain ⟨m, hm⟩ := unwrap_offset_mult u a k hk
    obtain ⟨htail, hfa⟩ := ih (u.unwrap a).1 m hm
    have hout : ∃ j : ℤ, (u.unwrap a).2 = a + 360 * (j : ℚ) := by
      cases hp : u.previous_angle with
      | none =>
        refine ⟨0, ?_⟩
        simp [AngleUnwrapper.unwrap, hp]
      | some p =>
        refine ⟨m, ?_⟩
        rw [unwrap_snd_eq u a p hp, hm]
    constructor
    · simpa [AngleUnwrapper.run] using htail
    · simpa [AngleUnwrapper.run] using List.Forall₂.cons hout hfa

/-- From a stored previous angle and offset 0, a chain of angles whose
consecutive differences all lie in [-180, 180] passes through `unwrap`
unchanged. -/
theorem run_id_of_small_diffs (angles : List ℚ) :
    ∀ prev : ℚ, List.Chain (fun a b => |b - a| ≤ 180) prev angles →
      ((⟨some prev, 0⟩ : AngleUnwrapper).run angles).2 = angles := by
  induction angles with
  | nil => intro prev _; rfl
  | cons a rest ih =>
    intro prev hchain
    rcases hchain with _ | ⟨hab, hrest⟩
    obtain ⟨hle, hge⟩ := abs_le.mp hab
    have h1 : ¬(a - prev > 180) := by linarith
    have h2 : ¬(a - prev < -180) := by linarith
    have hstep : (⟨some prev, 0⟩ : AngleUnwrapper).unwrap a = (⟨some a, 0⟩, a) := by
      simp [AngleUnwrapper.unwrap, h1, h2]
    simp only [AngleUnwrapper.run, hstep]
    rw [ih a hrest]

/-- C9: over every run of an `AngleUnwrapper`, the accumulated offset is
an integer multiple of 360, so every returned value is congruent to its
input angle modulo 360; and an input sequence whose consecutive
differences all lie in [-180, 180] is returned unchanged. -/
theorem unwrap_offset_invariant :
    ∀ angles : List ℚ,
      (∃ m : ℤ, (AngleUnwrapper.init.run angles).1.offset = 360 * (m : ℚ)) ∧
      List.Forall₂ (fun a o : ℚ => ∃ m : ℤ, o = a + 360 * (m : ℚ)) angles
        (AngleUnwrapper.init.run angles).2 ∧
      (angles.Chain' (fun a b => |b - a| ≤ 180) →
        (AngleUnwrapper.init.run angles).2 = angles) := by
  intro angles
  obtain ⟨hmult, hcong⟩ :=
    run_offset_invariant angles AngleUnwrapper.init 0
      (by norm_num [AngleUnwrapper.init])
  refine ⟨hmult, hcong, ?_⟩
  intro hchain
  cases angles with
  | nil => rfl
  | cons a rest =>
    have hstep : AngleUnwrapper.init.unwrap a = (⟨some a, 0⟩, a) := rfl
    simp only [AngleUnwrapper.run, hstep]
    rw [run_id_of_small_diffs rest a hchain]

/-- Witness for C9 at a concrete input: the trace 350, 170, 350 has
consecutive differences -180 and 180, both inside [-180, 180], and is
returned unchanged. -/
theorem unwrap_offset_invariant_witness :
    (AngleUnwrapper.init.run [350, 170, 350]).2 = [350, 170, 350] := by
  refine (unwrap_offset_invariant [350, 170, 350]).2.2 ?_
  norm_num [List.chain'_cons, List.chain'_singleton, abs_le]

/-- C10: in every iteration of the random-movement thread and for every
configuration of the speed-percent bounds (any `random.uniform` draw),
the clamped goal velocity lies within
[-MAX_VELOCITY_UNIT, MAX_VELOCITY_UNIT]; and the shutdown cleanup sends
every configured servo goal velocity 0 and disables its torque. -/
theorem random_move_velocity_bounded_and_cleanup :
    (∀ (speed_percent : ℚ) (direction maxVelocityUnit : ℤ),
      0 ≤ maxVelocityUnit →
      -maxVelocityUnit ≤ randomGoalVelocity speed_percent direction maxVelocityUnit ∧
      randomGoalVelocity speed_percent direction maxVelocityUnit ≤ maxVelocityUnit) ∧
    (∀ (servoIds : List ℤ) (sid : ℤ), sid ∈ servoIds →
      DxlAction.setGoalVelocity sid 0 ∈ randomMoveCleanup servoIds ∧
      DxlAction.setTorque sid false ∈ randomMoveCleanup servoIds) := by
  constructor
  · intro sp dir maxv hmax
    unfold randomGoalVelocity
    exact ⟨le_max_left _ _, max_le (by omega) (min_le_left _ _)⟩
  · intro ids sid hmem
    unfold randomMoveCleanup
    constructor <;> exact List.mem_flatMap.mpr ⟨sid, hmem, by simp⟩

/-- Witness for C10 at concrete inputs: a 350%-speed draw with negative
direction against the default `MAX_VELOCITY_UNIT = 1023` stays clamped
to the range, and the cleanup of servo list [1, 2] covers servo 2. -/
theorem random_move_velocity_bounded_and_cleanup_witness :
    (-1023 ≤ randomGoalVelocity 350 (-1) 1023 ∧
      randomGoalVelocity 350 (-1) 1023 ≤ 1023) ∧
    (DxlAction.setGoalVelocity 2 0 ∈ randomMoveCleanup [1, 2] ∧
      DxlAction.setTorque 2 false ∈ randomMoveCleanup [1, 2]) :=
  ⟨random_move_velocity_bounded_and_cleanup.1 350 (-1) 1023 (by norm_num),
   random_move_velocity_bounded_and_cleanup.2 [1, 2] 2 (by simp)⟩

end IMUGimbal
